import Mathlib

/-!
Shallow embedding of the swarm repository (a gluten-free restaurant finder):
secret retrieval (`get_secret`), address formatting (`format_address`),
IP geolocation (`get_my_location`), address geocoding (`geocode_address`),
place search (`search_gluten_free_restaurants`, strict and lenient variants)
and the top-level pipeline control flow of the three runnable variants.

JSON values are modelled by an inductive `Json`; Python runtime exceptions by
`PyErr`; fallible Python code by `Except PyErr`.  Python floats are modelled
as exact rationals (`Rat`): every claim here is about control flow and field
plumbing, not IEEE rounding.
-/

/-- Python runtime exception kinds that the embedded code can raise. -/
inductive PyErr where
  | keyError
  | typeError
  | attributeError
  | valueError
  | indexError
  | nameError
  | jsonDecodeError
  | unicodeDecodeError
  | binasciiError
  | requestsError
  | exception (msg : String)
deriving Repr, DecidableEq

/-- JSON values as delivered by `response.json()` / produced by `json.loads`. -/
inductive Json where
  | null
  | bool (b : Bool)
  | num (q : Rat)
  | str (s : String)
  | arr (items : List Json)
  | obj (fields : List (String × Json))
deriving Repr

/-- Python truthiness (`if x:`) of a JSON value: `None`, `False`, `0`, `""`,
`[]` and `{}` are falsy, everything else truthy. -/
def Json.truthy : Json → Bool
  | .null => false
  | .bool b => b
  | .num q => q ≠ 0
  | .str s => !s.isEmpty
  | .arr l => !l.isEmpty
  | .obj l => !l.isEmpty

/-- Python `d.get(k, default)`: `AttributeError` when the receiver is not a
dict, otherwise the value at `k` or the default. -/
def Json.getD (j : Json) (k : String) (d : Json) : Except PyErr Json :=
  match j with
  | .obj fs => .ok ((fs.lookup k).getD d)
  | _ => .error .attributeError

/-- Python `d.get(k)` (default `None`). -/
def Json.get1 (j : Json) (k : String) : Except PyErr Json :=
  j.getD k .null

/-- Python `d[k]` with a string key: `KeyError` when the key is absent,
`TypeError` when the receiver is not a dict. -/
def Json.idx (j : Json) (k : String) : Except PyErr Json :=
  match j with
  | .obj fs =>
    match fs.lookup k with
    | some v => .ok v
    | none => .error .keyError
  | _ => .error .typeError

/-- Python `str(x)` as used in f-strings, restricted to the scalar cases the
code meets: `None ↦ "None"`, strings verbatim, booleans `True`/`False`;
numeric and composite rendering is simplified to Lean's `toString`. -/
def pyStr : Json → String
  | .null => "None"
  | .bool true => "True"
  | .bool false => "False"
  | .num q => toString q
  | .str s => s
  | .arr _ => "[...]"
  | .obj _ => "{...}"

/-- Python `", ".join(parts)` over already-filtered parts: every part must be a
string (`TypeError` otherwise, as in Python's `str.join`). -/
def asPyStrings : List Json → Except PyErr (List String)
  | [] => .ok []
  | .str s :: rest => (fun l => s :: l) <$> asPyStrings rest
  | _ :: _ => .error .typeError

/-- Python `sep.join(parts)` for a list of JSON parts. -/
def pyJoin (sep : String) (parts : List Json) : Except PyErr String :=
  (String.intercalate sep) <$> asPyStrings parts

/-- Model of `format_address(location)` (identical in glutenfreefinder.py,
streamlitapp.py and searchplaces.py): takes the five optional fields via
`location.get(...)`, keeps the truthy ones in fixed order and joins them
with `", "`. -/
def format_address (location : Json) : Except PyErr String := do
  let a ← location.get1 "address"
  let l ← location.get1 "locality"
  let r ← location.get1 "region"
  let p ← location.get1 "postcode"
  let c ← location.get1 "country"
  pyJoin ", " ([a, l, r, p, c].filter Json.truthy)

/-- A structured address with an optional string per field, rendered as the
JSON object the places API would deliver: absent fields are omitted. -/
def mkLocation (a l r p c : Option String) : Json :=
  .obj (List.filterMap id
    [a.map (fun s => ("address", Json.str s)),
     l.map (fun s => ("locality", Json.str s)),
     r.map (fun s => ("region", Json.str s)),
     p.map (fun s => ("postcode", Json.str s)),
     c.map (fun s => ("country", Json.str s))])

/-- The JSON value a present/absent optional string field contributes. -/
def optJson : Option String → Json
  | none => .null
  | some s => .str s

/-- Split a leading run of decimal digits from a character list. -/
def takeDigits : List Char → List Char × List Char
  | [] => ([], [])
  | c :: cs =>
    if c.isDigit then
      let (d, r) := takeDigits cs
      (c :: d, r)
    else ([], c :: cs)

/-- Numeric value of a digit run. -/
def digitsVal (ds : List Char) : Nat :=
  ds.foldl (fun acc c => 10 * acc + (c.toNat - 48)) 0

/-- Consume an optional leading sign; `true` means negative. -/
def parseSign : List Char → Bool × List Char
  | '+' :: cs => (false, cs)
  | '-' :: cs => (true, cs)
  | cs => (false, cs)

/-- ASCII whitespace as stripped by Python's `float` before parsing. -/
def isSpaceChar (c : Char) : Bool :=
  c = ' ' || c = '\t' || c = '\n' || c = '\r'

/-- Strip leading and trailing whitespace from a character list. -/
def stripChars (cs : List Char) : List Char :=
  ((cs.dropWhile isSpaceChar).reverse.dropWhile isSpaceChar).reverse

/-- Python `s.split(sep)` for a one-character separator: `""` splits to
`[""]`, separators at the ends produce empty parts. -/
def splitChars (sep : Char) : List Char → List (List Char)
  | [] => [[]]
  | c :: cs =>
    let r := splitChars sep cs
    if c = sep then [] :: r
    else
      match r with
      | h :: t => (c :: h) :: t
      | [] => [[c]]

/-- Python `s.split(sep)` on strings. -/
def pySplit (sep : Char) (s : String) : List String :=
  (splitChars sep s.toList).map String.mk

/-- The exact rational `± ip.fp × 10^epow` a decimal notation denotes,
built with `mkRat` from the digit runs. -/
def decimalToRat (neg : Bool) (ip fp : List Char) (epow : Int) : Rat :=
  let n := digitsVal (ip ++ fp)
  let e : Int := epow - fp.length
  let mag := if 0 ≤ e then mkRat (n * 10 ^ e.toNat) 1 else mkRat n (10 ^ (-e).toNat)
  if neg then Rat.neg mag else mag

/-- Python's `float(s)` on finite decimal notation (optional sign, integer
and/or fractional digits, optional exponent), `ValueError` otherwise.
`inf`/`nan` and digit underscores are not modelled; results are exact
rationals. -/
def pyFloat (s : String) : Except PyErr Rat :=
  let cs0 := stripChars s.toList
  let (neg, cs1) := parseSign cs0
  let (ip, cs2) := takeDigits cs1
  let (fp, cs3) :=
    match cs2 with
    | '.' :: rest => takeDigits rest
    | _ => ([], cs2)
  if ip.isEmpty && fp.isEmpty then .error .valueError
  else
    match cs3 with
    | [] => .ok (decimalToRat neg ip fp 0)
    | e :: rest =>
      if e = 'e' || e = 'E' then
        let (eneg, r1) := parseSign rest
        let (ed, r2) := takeDigits r1
        if ed.isEmpty || !r2.isEmpty then .error .valueError
        else
          .ok (decimalToRat neg ip fp
            (if eneg then -(digitsVal ed : Int) else (digitsVal ed : Int)))
      else .error .valueError

/-- Python's `float(x)` applied to a JSON value: strings are parsed, numbers
pass through, booleans coerce, everything else is a `TypeError`.
Used by `geocode_address` for `float(results[0]["lat"])`. -/
def pyFloatJ : Json → Except PyErr Rat
  | .str s => pyFloat s
  | .num q => .ok q
  | .bool b => .ok (if b then 1 else 0)
  | _ => .error .typeError

/-- Model of `lat, lon = map(float, loc.split(","))`: exactly two comma-separated
parts, both parsed by `float`; anything else raises (`ValueError`). -/
def parseLoc (s : String) : Except PyErr (Rat × Rat) :=
  match pySplit ',' s with
  | [a, b] => do
    let la ← pyFloat a
    let lo ← pyFloat b
    pure (la, lo)
  | _ => .error .valueError

/-- An HTTP response as the code observes it: status, raw text, and the
outcome of `.json()` (which may itself raise). -/
structure Response where
  status_code : Nat
  text : String
  jsonResult : Except PyErr Json

/-- Outcome of `requests.get`: a network-level exception or a response. -/
inductive HttpOutcome where
  | netError
  | ok (r : Response)

/-- Python `results[0]`: first element of a JSON array (`IndexError` when empty,
`KeyError` for an integer key on a dict, `TypeError` otherwise). -/
def Json.at0 : Json → Except PyErr Json
  | .arr (x :: _) => .ok x
  | .arr [] => .error .indexError
  | .obj _ => .error .keyError
  | _ => .error .typeError

/-- The `try:` body of `get_my_location` (identical in glutenfreefinder.py,
searchplaces.py and streamlitapp.py): `none` models falling off the `if loc:`
without returning. -/
def get_my_location_body (r : Response) :
    Except PyErr (Option (Option Rat × Option Rat × String)) := do
  let data ← r.jsonResult
  let loc ← data.get1 "loc"
  let city ← data.get1 "city"
  let region ← data.get1 "region"
  let country ← data.get1 "country"
  let address := pyStr city ++ ", " ++ pyStr region ++ ", " ++ pyStr country
  if loc.truthy then
    match loc with
    | .str s => do
      let (la, lo) ← parseLoc s
      pure (some (some la, some lo, address))
    | _ => .error .attributeError
  else
    pure none

/-- Model of `get_my_location()`: IP-geolocation lookup; every exception in the body
and the fall-through path end at `(None, None, "Unknown Location")`. -/
def get_my_location (out : HttpOutcome) : Option Rat × Option Rat × String :=
  match out with
  | .netError => (none, none, "Unknown Location")
  | .ok r =>
    match get_my_location_body r with
    | .ok (some res) => res
    | _ => (none, none, "Unknown Location")

/-- The `try:` body of `geocode_address` (glutenfreefinder.py): `none`
models falling through (non-200 status or empty result list). The label is
kept as a JSON value because `results[0].get("display_name", address)` is
returned verbatim. -/
def geocode_address_body (address : String) (r : Response) :
    Except PyErr (Option (Option Rat × Option Rat × Json)) := do
  if r.status_code == 200 then
    let results ← r.jsonResult
    if results.truthy then
      let first ← results.at0
      let latJ ← first.idx "lat"
      let la ← pyFloatJ latJ
      let first2 ← results.at0
      let lonJ ← first2.idx "lon"
      let lo ← pyFloatJ lonJ
      let first3 ← results.at0
      let formatted ← first3.getD "display_name" (.str address)
      pure (some (some la, some lo, formatted))
    else pure none
  else pure none

/-- Model of `geocode_address(address)`: free-text geocoding; every exception and
both fall-through paths end at `(None, None, "Unknown Location")`. -/
def geocode_address (address : String) (out : HttpOutcome) :
    Option Rat × Option Rat × Json :=
  match out with
  | .netError => (none, none, .str "Unknown Location")
  | .ok r =>
    match geocode_address_body address r with
    | .ok (some res) => res
    | _ => (none, none, .str "Unknown Location")

/-- Iterating a JSON value in a `for place in results` comprehension: arrays
yield elements, strings yield one-character strings, dicts yield their keys,
other values raise `TypeError`. -/
def pyIter : Json → Except PyErr (List Json)
  | .arr l => .ok l
  | .str s => .ok (s.toList.map (fun c => .str (String.mk [c])))
  | .obj fs => .ok (fs.map (fun p => Json.str p.1))
  | _ => .error .typeError

/-- A place record emitted by the strict search variant
(glutenfreefinder.py): name and coordinates are kept as raw JSON values
(`lat`/`lon` are `null` when the nested geocode field is absent). -/
structure GffPlace where
  name : Json
  address : String
  lat : Json
  lon : Json
deriving Repr

/-- The comprehension filter of the strict variant:
`place.get("geocodes", {}).get("main")` is truthy. -/
def gff_filter (place : Json) : Except PyErr Bool := do
  let g ← place.getD "geocodes" (.obj [])
  let m ← g.get1 "main"
  pure m.truthy

/-- The comprehension body of the strict variant: strict `place["name"]` and
`place["location"]` access, defensive chained `.get` for the coordinates. -/
def gff_map_place (place : Json) : Except PyErr GffPlace := do
  let name ← place.idx "name"
  let locj ← place.idx "location"
  let addr ← format_address locj
  let g1 ← place.getD "geocodes" (.obj [])
  let m1 ← g1.getD "main" (.obj [])
  let lat ← m1.get1 "latitude"
  let g2 ← place.getD "geocodes" (.obj [])
  let m2 ← g2.getD "main" (.obj [])
  let lon ← m2.get1 "longitude"
  pure ⟨name, addr, lat, lon⟩

/-- The strict variant's list comprehension: filter each result, map the
kept ones; the first raised exception aborts the whole comprehension. -/
def gff_map_results : List Json → Except PyErr (List GffPlace)
  | [] => .ok []
  | p :: ps => do
    let keep ← gff_filter p
    if keep then
      let rec1 ← gff_map_place p
      let rest ← gff_map_results ps
      pure (rec1 :: rest)
    else
      gff_map_results ps

/-- Model of `search_gluten_free_restaurants(lat, lon, api_key)` of
glutenfreefinder.py (the strict variant): the first component is the
message sent to the error channel (`st.error`), when any. -/
def search_gluten_free_restaurants (out : HttpOutcome) :
    Except PyErr (Option String × List GffPlace) :=
  match out with
  | .netError => .error .requestsError
  | .ok r =>
    if r.status_code ≠ 200 then
      .ok (some ("Error: " ++ toString r.status_code ++ " - " ++ r.text), [])
    else do
      let data ← r.jsonResult
      let results ← data.getD "results" (.arr [])
      let items ← pyIter results
      let places ← gff_map_results items
      pure (none, places)

/-- A place record emitted by the lenient search variants (streamlitapp.py
and searchplaces.py): no coordinate fields at all. -/
structure LenPlace where
  name : Json
  address : String
deriving Repr

/-- The comprehension body of the lenient variants: strict `place["name"]`
and `place["location"]` access, no geocode handling. -/
def len_map_place (place : Json) : Except PyErr LenPlace := do
  let name ← place.idx "name"
  let locj ← place.idx "location"
  let addr ← format_address locj
  pure ⟨name, addr⟩

/-- The lenient variants' list comprehension: every result is mapped, none
is filtered out. -/
def len_map_results : List Json → Except PyErr (List LenPlace)
  | [] => .ok []
  | p :: ps => do
    let rec1 ← len_map_place p
    let rest ← len_map_results ps
    pure (rec1 :: rest)

/-- Model of `search_gluten_free_restaurants(...)` of streamlitapp.py and
searchplaces.py (the lenient variants; the error channel is `st.error`
resp. `print`). -/
def search_gluten_free_restaurants_lenient (out : HttpOutcome) :
    Except PyErr (Option String × List LenPlace) :=
  match out with
  | .netError => .error .requestsError
  | .ok r =>
    if r.status_code ≠ 200 then
      .ok (some ("Error: " ++ toString r.status_code ++ " - " ++ r.text), [])
    else do
      let data ← r.jsonResult
      let results ← data.getD "results" (.arr [])
      let items ← pyIter results
      let places ← len_map_results items
      pure (none, places)

/-! ### `json.loads`, `base64.b64decode` and UTF-8 decoding

Models of the Python standard-library pieces `get_secret` composes.  The
JSON parser is fuel-bounded (fuel ≥ input length always suffices). -/

/-- Opening brace character. -/
def lbrace : Char := Char.ofNat 123

/-- Closing brace character. -/
def rbrace : Char := Char.ofNat 125

/-- Skip JSON whitespace. -/
def skipWs : List Char → List Char
  | c :: cs => if c = ' ' || c = '\t' || c = '\n' || c = '\r' then skipWs cs else c :: cs
  | [] => []

/-- Body of a JSON string after the opening quote; returns the decoded
characters and the remainder after the closing quote.  Escapes beyond
the simple single-character ones are not modelled. -/
def parseJsonStringAux : List Char → Option (List Char × List Char)
  | [] => none
  | '"' :: cs => some ([], cs)
  | '\\' :: c :: cs =>
    let esc : Option Char :=
      if c = '"' then some '"'
      else if c = '\\' then some '\\'
      else if c = '/' then some '/'
      else if c = 'n' then some '\n'
      else if c = 't' then some '\t'
      else if c = 'r' then some '\r'
      else none
    match esc with
    | some e => (fun p => (e :: p.1, p.2)) <$> parseJsonStringAux cs
    | none => none
  | c :: cs => (fun p => (c :: p.1, p.2)) <$> parseJsonStringAux cs

/-- A JSON number (`-? digits (. digits)? ([eE] sign? digits)?`) as an exact
rational, with the remainder. -/
def parseJsonNumber (cs : List Char) : Option (Json × List Char) :=
  let (neg, cs1) := match cs with
    | '-' :: r => (true, r)
    | _ => (false, cs)
  let (ip, cs2) := takeDigits cs1
  if ip.isEmpty then none
  else
    let (fp, cs3) := match cs2 with
      | '.' :: r =>
        let (d, r2) := takeDigits r
        if d.isEmpty then (([] : List Char), cs2) else (d, r2)
      | _ => ([], cs2)
    let (epow, cs4) := match cs3 with
      | e :: r =>
        if e = 'e' || e = 'E' then
          let (eneg, r1) := parseSign r
          let (ed, r2) := takeDigits r1
          if ed.isEmpty then ((0 : Int), cs3)
          else (if eneg then -(digitsVal ed : Int) else (digitsVal ed : Int), r2)
        else ((0 : Int), cs3)
      | [] => ((0 : Int), cs3)
    some (.num (decimalToRat neg ip fp epow), cs4)

mutual

/-- Parse one JSON value (fuel-bounded). -/
def parseJsonValue : Nat → List Char → Option (Json × List Char)
  | 0, _ => none
  | f + 1, cs =>
    match skipWs cs with
    | 'n' :: 'u' :: 'l' :: 'l' :: rest => some (.null, rest)
    | 't' :: 'r' :: 'u' :: 'e' :: rest => some (.bool true, rest)
    | 'f' :: 'a' :: 'l' :: 's' :: 'e' :: rest => some (.bool false, rest)
    | '"' :: rest =>
      match parseJsonStringAux rest with
      | some (chars, rest2) => some (.str (String.mk chars), rest2)
      | none => none
    | '[' :: rest =>
      match skipWs rest with
      | ']' :: rest2 => some (.arr [], rest2)
      | rest2 =>
        match parseJsonItems f rest2 with
        | some (items, rest3) => some (.arr items, rest3)
        | none => none
    | c :: rest =>
      if c = lbrace then
        match skipWs rest with
        | c2 :: rest2 =>
          if c2 = rbrace then some (.obj [], rest2)
          else
            match parseJsonFields f (c2 :: rest2) with
            | some (fs, rest3) => some (.obj fs, rest3)
            | none => none
        | [] => none
      else parseJsonNumber (c :: rest)
    | [] => none

/-- Parse the items of a non-empty JSON array, up to and including `]`. -/
def parseJsonItems : Nat → List Char → Option (List Json × List Char)
  | 0, _ => none
  | f + 1, cs =>
    match parseJsonValue f cs with
    | some (v, rest) =>
      match skipWs rest with
      | ',' :: rest2 =>
        match parseJsonItems f rest2 with
        | some (vs, rest3) => some (v :: vs, rest3)
        | none => none
      | ']' :: rest2 => some ([v], rest2)
      | _ => none
    | none => none

/-- Parse the fields of a non-empty JSON object, up to and including the
closing brace. -/
def parseJsonFields : Nat → List Char → Option (List (String × Json) × List Char)
  | 0, _ => none
  | f + 1, cs =>
    match skipWs cs with
    | '"' :: rest =>
      match parseJsonStringAux rest with
      | some (key, rest2) =>
        match skipWs rest2 with
        | ':' :: rest3 =>
          match parseJsonValue f rest3 with
          | some (v, rest4) =>
            match skipWs rest4 with
            | ',' :: rest5 =>
              match parseJsonFields f rest5 with
              | some (fs, rest6) => some ((String.mk key, v) :: fs, rest6)
              | none => none
            | c :: rest5 =>
              if c = rbrace then some ([(String.mk key, v)], rest5) else none
            | [] => none
          | none => none
        | _ => none
      | none => none
    | _ => none

end

/-- Python's `json.loads` on a string: parse one value, allow only trailing
whitespace, raise `json.JSONDecodeError` otherwise. -/
def json_loads (s : String) : Except PyErr Json :=
  match parseJsonValue (2 * s.length + 2) s.toList with
  | some (v, rest) => if (skipWs rest).isEmpty then .ok v else .error .jsonDecodeError
  | none => .error .jsonDecodeError

/-- Value of a character in the standard base64 alphabet. -/
def b64CharVal (c : Char) : Option Nat :=
  if 'A' ≤ c ∧ c ≤ 'Z' then some (c.toNat - 65)
  else if 'a' ≤ c ∧ c ≤ 'z' then some (c.toNat - 71)
  else if '0' ≤ c ∧ c ≤ '9' then some (c.toNat + 4)
  else if c = '+' then some 62
  else if c = '/' then some 63
  else none

/-- Decode base64 in groups of four characters (padding only at the end);
wrong padding raises `binascii.Error`. -/
def b64decodeAux : List Char → Except PyErr (List Nat)
  | [] => .ok []
  | a :: b :: c :: d :: rest =>
    match b64CharVal a, b64CharVal b with
    | some va, some vb =>
      if d = '=' && rest.isEmpty then
        if c = '=' then
          .ok [va * 4 + vb / 16]
        else
          match b64CharVal c with
          | some vc => .ok [va * 4 + vb / 16, (vb % 16) * 16 + vc / 4]
          | none => .error .binasciiError
      else
        match b64CharVal c, b64CharVal d with
        | some vc, some vd => do
          let tail ← b64decodeAux rest
          let n := va * 262144 + vb * 4096 + vc * 64 + vd
          pure (n / 65536 :: n / 256 % 256 :: n % 256 :: tail)
        | _, _ => .error .binasciiError
    | _, _ => .error .binasciiError
  | _ => .error .binasciiError

/-- Python's `base64.b64decode` with default `validate=False`: characters
outside the alphabet and `=` are discarded first. -/
def b64decode (s : String) : Except PyErr (List Nat) :=
  b64decodeAux (s.toList.filter (fun c => (b64CharVal c).isSome || c = '='))

/-- Fuel-bounded UTF-8 decoding of a byte list (fuel ≥ length suffices);
invalid sequences raise `UnicodeDecodeError`. -/
def utf8DecodeAux : Nat → List Nat → Except PyErr (List Char)
  | _, [] => .ok []
  | 0, _ :: _ => .error .unicodeDecodeError
  | f + 1, b :: rest =>
    if b < 128 then
      (fun cs => Char.ofNat b :: cs) <$> utf8DecodeAux f rest
    else if b < 194 then .error .unicodeDecodeError
    else if b < 224 then
      match rest with
      | b2 :: rest2 =>
        if 128 ≤ b2 ∧ b2 < 192 then
          (fun cs => Char.ofNat ((b - 192) * 64 + (b2 - 128)) :: cs) <$> utf8DecodeAux f rest2
        else .error .unicodeDecodeError
      | [] => .error .unicodeDecodeError
    else if b < 240 then
      match rest with
      | b2 :: b3 :: rest2 =>
        if 128 ≤ b2 ∧ b2 < 192 ∧ 128 ≤ b3 ∧ b3 < 192 then
          let cp := (b - 224) * 4096 + (b2 - 128) * 64 + (b3 - 128)
          if 2048 ≤ cp ∧ (cp < 55296 ∨ 57343 < cp) then
            (fun cs => Char.ofNat cp :: cs) <$> utf8DecodeAux f rest2
          else .error .unicodeDecodeError
        else .error .unicodeDecodeError
      | _ => .error .unicodeDecodeError
    else if b < 245 then
      match rest with
      | b2 :: b3 :: b4 :: rest2 =>
        if 128 ≤ b2 ∧ b2 < 192 ∧ 128 ≤ b3 ∧ b3 < 192 ∧ 128 ≤ b4 ∧ b4 < 192 then
          let cp := (b - 240) * 262144 + (b2 - 128) * 4096 + (b3 - 128) * 64 + (b4 - 128)
          if 65536 ≤ cp ∧ cp ≤ 1114111 then
            (fun cs => Char.ofNat cp :: cs) <$> utf8DecodeAux f rest2
          else .error .unicodeDecodeError
        else .error .unicodeDecodeError
      | _ => .error .unicodeDecodeError
    else .error .unicodeDecodeError

/-- UTF-8 decode a byte list to a string. -/
def utf8Decode (bs : List Nat) : Except PyErr String :=
  String.mk <$> utf8DecodeAux bs.length bs

/-- Python `json.loads` applied to a bytes object: UTF-8 decode, then parse. -/
def json_loads_bytes (bs : List Nat) : Except PyErr Json := do
  let s ← utf8Decode bs
  json_loads s

/-- The payload the secret store delivers: a text secret (`SecretString`) or
a binary secret (`SecretBinary`, here the base64 text, since the spec's
store delivers "a base64-encoded binary JSON blob"). -/
inductive SecretPayload where
  | string (s : String)
  | binary (b64text : String)

/-- Outcome of `client.get_secret_value`: a `ClientError` or a payload. -/
inductive StoreOutcome where
  | clientError (msg : String)
  | ok (payload : SecretPayload)

/-- Model of `get_secret(secret_name)`: common to all four files up to one
difference, whether the module imports `base64`.  glutenfreefinder.py and
streamlitapp.py do; secrets.py and searchplaces.py call
`base64.b64decode` without importing it, so their binary branch raises
`NameError` at runtime. -/
def get_secret (base64_imported : Bool) : StoreOutcome → Except PyErr Json
  | .clientError m => .error (.exception ("Unable to retrieve secret: " ++ m))
  | .ok (.string s) => json_loads s
  | .ok (.binary b) =>
    if base64_imported then do
      let bytes ← b64decode b
      json_loads_bytes bytes
    else .error .nameError

/-- The spec composition `fetchCredential`: `get_secret` followed by `secrets["api_key"]`. -/
def fetchCredential (base64_imported : Bool) (store : StoreOutcome) :
    Except PyErr Json := do
  let secrets ← get_secret base64_imported store
  secrets.idx "api_key"

/-- Which steps the top-level pipeline performs after location resolution:
whether it takes the "could not determine location" failure path, whether it
reaches the credential fetch, and whether it reaches the place search. -/
structure MainTrace where
  stopped : Bool
  fetchedCredential : Bool
  searched : Bool
deriving Repr, DecidableEq

/-- Python truthiness of the resolved latitude (`if not latitude:`):
`None` and `0.0` are falsy. -/
def pyTruthyOptFloat : Option Rat → Bool
  | none => false
  | some x => x ≠ 0

/-- The shared post-resolution control flow of all three runnable variants:
stop when `not latitude`, otherwise fetch the credential, extract
`secrets["api_key"]` and (when that does not raise) search. -/
def run_pipeline (latitude : Option Rat) (store : StoreOutcome)
    (base64_imported : Bool) : MainTrace :=
  if pyTruthyOptFloat latitude then
    match fetchCredential base64_imported store with
    | .ok _ => ⟨false, true, true⟩
    | .error _ => ⟨false, true, false⟩
  else ⟨true, false, false⟩

/-- How glutenfreefinder.py's `main` obtains its location: the radio
choice plus the corresponding upstream response (an empty manual address
skips the lookup and leaves `latitude = None`). -/
inductive LocationChoice where
  | useCurrent (ipResp : HttpOutcome)
  | enterAddress (input : String) (geoResp : HttpOutcome)
  | enterAddressEmpty

/-- Model of `main()` of glutenfreefinder.py, reduced to its pipeline trace. -/
def main_glutenfreefinder (choice : LocationChoice) (store : StoreOutcome) :
    MainTrace :=
  let latitude : Option Rat :=
    match choice with
    | .useCurrent ip => (get_my_location ip).1
    | .enterAddress a g => (geocode_address a g).1
    | .enterAddressEmpty => none
  run_pipeline latitude store true

/-- The module-level flow of searchplaces.py (`exit()` when `not latitude`,
otherwise secret fetch then search), reduced to its pipeline trace. -/
def main_searchplaces (ip : HttpOutcome) (store : StoreOutcome) : MainTrace :=
  run_pipeline (get_my_location ip).1 store false

/-- Model of `main()` of streamlitapp.py, reduced to its pipeline trace. -/
def main_streamlitapp (ip : HttpOutcome) (store : StoreOutcome) : MainTrace :=
  run_pipeline (get_my_location ip).1 store true

/-! ## Helper lemmas -/

/-- Bind on a successful `Except` computation runs the continuation. -/
@[simp]
lemma ok_bind {ε α β : Type} (a : α) (f : α → Except ε β) :
    (Except.ok a : Except ε α) >>= f = f a := rfl

/-- Bind on a raised exception propagates it. -/
@[simp]
lemma error_bind {ε α β : Type} (e : ε) (f : α → Except ε β) :
    (Except.error e : Except ε α) >>= f = .error e := rfl

/-- The monadic unit of `Except` is `ok`. -/
@[simp]
lemma pure_eq_ok {ε α : Type} (a : α) : (pure a : Except ε α) = .ok a := rfl

/-- The truthy parts of the five optional fields are exactly the present,
non-empty values, as strings. -/
lemma asPyStrings_optJson (l : List (Option String)) :
    asPyStrings ((l.map optJson).filter Json.truthy) =
      .ok ((l.filterMap id).filter (fun s => !s.isEmpty)) := by
  induction l with
  | nil => rfl
  | cons hd tl ih =>
    cases hd with
    | none => simpa [optJson, Json.truthy] using ih
    | some s =>
      by_cases hs : s.isEmpty
      · simp [optJson, Json.truthy, hs, ih]
      · simp [optJson, Json.truthy, hs, asPyStrings, ih]

/-- Joining the truthy parts equals intercalating the present, non-empty
field values. -/
lemma pyJoin_optJson (l : List (Option String)) :
    pyJoin ", " ((l.map optJson).filter Json.truthy) =
      .ok (String.intercalate ", " ((l.filterMap id).filter (fun s => !s.isEmpty))) := by
  simp [pyJoin, asPyStrings_optJson]

/-- On a structured address built from five optional fields,
`format_address` joins the truthy parts in their fixed order. -/
lemma format_address_mkLocation (a l r p c : Option String) :
    format_address (mkLocation a l r p c) =
      pyJoin ", " (([a, l, r, p, c].map optJson).filter Json.truthy) := by
  cases a <;> cases l <;> cases r <;> cases p <;> cases c <;> rfl

/-! ## Claims -/

/-- C4: for every StructuredAddress with some subset of the 5 fields
(street address, locality, region, postal code, country) present
(non-null, non-empty), `format_address` returns exactly those values, in
that fixed order, joined by `", "`, with no leading or trailing separator;
absent fields do not appear in the output. -/
theorem claim_C4_format_address (a l r p c : Option String) :
    format_address (mkLocation a l r p c) =
      .ok (String.intercalate ", "
        (([a, l, r, p, c].filterMap id).filter (fun s => !s.isEmpty))) :=
  (format_address_mkLocation a l r p c).trans (pyJoin_optJson [a, l, r, p, c])

/-- Every record produced by the strict comprehension comes from an input
result that passed the geocode filter and was mapped to that record. -/
lemma gff_map_results_sound (items : List Json) :
    ∀ (out : List GffPlace), gff_map_results items = .ok out →
      ∀ r ∈ out, ∃ p ∈ items, gff_filter p = .ok true ∧ gff_map_place p = .ok r := by
  induction items with
  | nil =>
    intro out h r hr
    simp only [gff_map_results, Except.ok.injEq] at h
    subst h
    simp at hr
  | cons p ps ih =>
    intro out h r hr
    simp only [gff_map_results] at h
    cases hf : gff_filter p with
    | error e => simp [hf] at h
    | ok keep =>
      simp only [hf, ok_bind] at h
      cases keep with
      | false =>
        simp only [Bool.false_eq_true, if_false] at h
        obtain ⟨q, hq, hfq, hmq⟩ := ih out h r hr
        exact ⟨q, List.mem_cons_of_mem _ hq, hfq, hmq⟩
      | true =>
        simp only [if_true] at h
        cases hm : gff_map_place p with
        | error e => simp [hm] at h
        | ok r1 =>
          simp only [hm, ok_bind] at h
          cases hrest : gff_map_results ps with
          | error e => simp [hrest] at h
          | ok rest =>
            simp only [hrest, ok_bind, pure_eq_ok, Except.ok.injEq] at h
            subst h
            rcases List.mem_cons.mp hr with h1 | h2
            · subst h1
              exact ⟨p, List.mem_cons_self p ps, hf, hm⟩
            · obtain ⟨q, hq, hfq, hmq⟩ := ih rest hrest r h2
              exact ⟨q, List.mem_cons_of_mem _ hq, hfq, hmq⟩

/-- A result that passes the strict variant's filter has a present, truthy
`geocodes.main` field. -/
lemma gff_filter_true_main_present (p : Json) (h : gff_filter p = .ok true) :
    ∃ g m, p.getD "geocodes" (.obj []) = .ok (.obj g) ∧ g.lookup "main" = some m ∧
      m.truthy = true := by
  simp only [gff_filter] at h
  cases hg : p.getD "geocodes" (.obj []) with
  | error e => rw [hg] at h; simp at h
  | ok gv =>
    rw [hg] at h
    simp only [ok_bind] at h
    cases gv with
    | obj g =>
      simp only [Json.get1, Json.getD, ok_bind, pure_eq_ok, Except.ok.injEq] at h
      cases hm : g.lookup "main" with
      | none => rw [hm] at h; simp [Json.truthy] at h
      | some m =>
        rw [hm] at h
        simp only [Option.getD_some] at h
        exact ⟨g, m, rfl, hm, h⟩
    | null => simp [Json.get1, Json.getD] at h
    | bool b => simp [Json.get1, Json.getD] at h
    | num q => simp [Json.get1, Json.getD] at h
    | str s => simp [Json.get1, Json.getD] at h
    | arr l => simp [Json.get1, Json.getD] at h

/-- C1: on a 200 places-search response with two results, one of which lacks
`geocodes.main`, the strict variant (glutenfreefinder.py) excludes that
result while the lenient variants (searchplaces.py, streamlitapp.py)
include it; and in the strict variant every emitted record comes from a
result whose `geocodes.main` is present (and truthy). -/
theorem claim_C1 (t : String) (f1 g1 m1 f2 g2 : List (String × Json))
    (n1 loc1 n2 loc2 : Json) (addr1 addr2 : String)
    (h1g : f1.lookup "geocodes" = some (.obj g1))
    (h1m : g1.lookup "main" = some (.obj m1))
    (h1t : m1 ≠ [])
    (h1n : f1.lookup "name" = some n1)
    (h1l : f1.lookup "location" = some loc1)
    (h1a : format_address loc1 = .ok addr1)
    (h2g : f2.lookup "geocodes" = some (.obj g2))
    (h2m : g2.lookup "main" = none)
    (h2n : f2.lookup "name" = some n2)
    (h2l : f2.lookup "location" = some loc2)
    (h2a : format_address loc2 = .ok addr2) :
    search_gluten_free_restaurants
        (.ok ⟨200, t, .ok (.obj [("results", .arr [.obj f1, .obj f2])])⟩) =
      .ok (none, [⟨n1, addr1, (m1.lookup "latitude").getD .null,
        (m1.lookup "longitude").getD .null⟩]) ∧
    search_gluten_free_restaurants_lenient
        (.ok ⟨200, t, .ok (.obj [("results", .arr [.obj f1, .obj f2])])⟩) =
      .ok (none, [⟨n1, addr1⟩, ⟨n2, addr2⟩]) ∧
    (∀ (items : List Json) (out : List GffPlace), gff_map_results items = .ok out →
        ∀ r ∈ out, ∃ p ∈ items, gff_filter p = .ok true ∧ gff_map_place p = .ok r) ∧
    (∀ p : Json, gff_filter p = .ok true →
        ∃ g m, p.getD "geocodes" (.obj []) = .ok (.obj g) ∧ g.lookup "main" = some m ∧
          m.truthy = true) := by
  have hf1 : gff_filter (.obj f1) = .ok true := by
    simp [gff_filter, Json.getD, Json.get1, h1g, h1m, Json.truthy, h1t]
  have hf2 : gff_filter (.obj f2) = .ok false := by
    simp [gff_filter, Json.getD, Json.get1, h2g, h2m, Json.truthy]
  have hm1 : gff_map_place (.obj f1) =
      .ok ⟨n1, addr1, (m1.lookup "latitude").getD .null,
        (m1.lookup "longitude").getD .null⟩ := by
    simp [gff_map_place, Json.idx, Json.getD, Json.get1, h1n, h1l, h1a, h1g, h1m]
  have hl1 : len_map_place (.obj f1) = .ok ⟨n1, addr1⟩ := by
    simp [len_map_place, Json.idx, h1n, h1l, h1a]
  have hl2 : len_map_place (.obj f2) = .ok ⟨n2, addr2⟩ := by
    simp [len_map_place, Json.idx, h2n, h2l, h2a]
  refine ⟨?_, ?_, gff_map_results_sound, gff_filter_true_main_present⟩
  · simp [search_gluten_free_restaurants, Json.getD, pyIter, gff_map_results, hf1, hf2, hm1,
      List.lookup]
  · simp [search_gluten_free_restaurants_lenient, Json.getD, pyIter, len_map_results, hl1,
      hl2, List.lookup]

/-- Witness for C1 at a concrete two-result response: result `A` carries
`geocodes.main`, result `B` does not. -/
theorem claim_C1_witness :
    search_gluten_free_restaurants (.ok ⟨200, "",
        .ok (.obj [("results", .arr [
          .obj [("name", .str "A"), ("location", .obj [("locality", .str "X")]),
            ("geocodes", .obj [("main",
              .obj [("latitude", .num 1), ("longitude", .num 2)])])],
          .obj [("name", .str "B"), ("location", .obj []),
            ("geocodes", .obj [])]])])⟩) =
      .ok (none, [⟨.str "A", "X", .num 1, .num 2⟩]) ∧
    search_gluten_free_restaurants_lenient (.ok ⟨200, "",
        .ok (.obj [("results", .arr [
          .obj [("name", .str "A"), ("location", .obj [("locality", .str "X")]),
            ("geocodes", .obj [("main",
              .obj [("latitude", .num 1), ("longitude", .num 2)])])],
          .obj [("name", .str "B"), ("location", .obj []),
            ("geocodes", .obj [])]])])⟩) =
      .ok (none, [⟨.str "A", "X"⟩, ⟨.str "B", ""⟩]) := by
  have h := claim_C1 ""
    [("name", .str "A"), ("location", .obj [("locality", .str "X")]),
      ("geocodes", .obj [("main", .obj [("latitude", .num 1), ("longitude", .num 2)])])]
    [("main", .obj [("latitude", .num 1), ("longitude", .num 2)])]
    [("latitude", .num 1), ("longitude", .num 2)]
    [("name", .str "B"), ("location", .obj []), ("geocodes", .obj [])]
    []
    (.str "A") (.obj [("locality", .str "X")]) (.str "B") (.obj [])
    "X" ""
    rfl rfl (List.cons_ne_nil _ _) rfl rfl (by rfl) rfl rfl rfl rfl (by rfl)
  exact ⟨h.1, h.2.1⟩

/-- C2 counterexample: a 200 response whose single result lacks `name`
makes the strict variant raise `KeyError` (it passes the geocode filter and
is then mapped), and one lacking `name` makes the lenient variant raise
too — field access on `name`/`location` is not defensive. -/
theorem claim_C2_counterexample :
    search_gluten_free_restaurants (.ok ⟨200, "",
        .ok (.obj [("results", .arr [.obj [("geocodes",
          .obj [("main", .obj [("latitude", .num 1)])])]])])⟩) = .error .keyError ∧
    search_gluten_free_restaurants_lenient (.ok ⟨200, "",
        .ok (.obj [("results", .arr [.obj []])])⟩) = .error .keyError :=
  ⟨by rfl, by rfl⟩

/-- C2 (amended): `searchNearby` accesses the nested geocode fields
defensively — a missing `geocodes`, `main`, `latitude` or `longitude`
yields null coordinates (or, in the strict variant, a silent skip of the
result), and a result without resolvable coordinates does not abort the
batch — but `name` and `location` are accessed strictly: mapping a result
lacking either raises `KeyError`. -/
theorem claim_C2_amended :
    (∀ (p : Json) (ps : List Json), gff_filter p = .ok false →
        gff_map_results (p :: ps) = gff_map_results ps) ∧
    (∀ fields : List (String × Json), fields.lookup "geocodes" = none →
        gff_filter (.obj fields) = .ok false) ∧
    (∀ (fields g m : List (String × Json)) (n loc : Json) (addr : String),
        fields.lookup "geocodes" = some (.obj g) → g.lookup "main" = some (.obj m) →
        m.lookup "latitude" = none → m.lookup "longitude" = none →
        fields.lookup "name" = some n → fields.lookup "location" = some loc →
        format_address loc = .ok addr →
        gff_map_place (.obj fields) = .ok ⟨n, addr, .null, .null⟩) ∧
    (∀ fields : List (String × Json), fields.lookup "name" = none →
        gff_map_place (.obj fields) = .error .keyError ∧
        len_map_place (.obj fields) = .error .keyError) := by
  refine ⟨?_, ?_, ?_, ?_⟩
  · intro p ps hf
    simp [gff_map_results, hf]
  · intro fields h
    simp [gff_filter, Json.getD, Json.get1, h, Json.truthy]
  · intro fields g m n loc addr hg hm hlat hlon hn hl ha
    simp [gff_map_place, Json.idx, Json.getD, Json.get1, hg, hm, hlat, hlon, hn, hl, ha]
  · intro fields h
    constructor <;> simp [gff_map_place, len_map_place, Json.idx, h]

/-- Witness for the amended C2 at concrete inputs: an empty result raises
`KeyError` when mapped, and a result with no `geocodes` key is filtered
out (no exception). -/
theorem claim_C2_amended_witness :
    gff_map_place (.obj []) = .error .keyError ∧
    gff_filter (.obj [("name", .str "A")]) = .ok false :=
  ⟨(claim_C2_amended.2.2.2 [] rfl).1,
   claim_C2_amended.2.1 [("name", .str "A")] rfl⟩

/-- C3: on the binary payload `base64("{\x22api_key\x22:\x22XYZ\x22}")` the
variants that import `base64` (glutenfreefinder.py, streamlitapp.py)
decode and parse it and deliver the credential `XYZ`, while the variants
that do not import it (secrets.py, searchplaces.py) raise `NameError` on
the same payload — the claim's "every source variant" fails on the code. -/
theorem claim_C3_binary_secret :
    get_secret true (.ok (.binary "eyJhcGlfa2V5IjoiWFlaIn0=")) =
      .ok (.obj [("api_key", .str "XYZ")]) ∧
    fetchCredential true (.ok (.binary "eyJhcGlfa2V5IjoiWFlaIn0=")) = .ok (.str "XYZ") ∧
    get_secret false (.ok (.binary "eyJhcGlfa2V5IjoiWFlaIn0=")) = .error .nameError ∧
    fetchCredential false (.ok (.binary "eyJhcGlfa2V5IjoiWFlaIn0=")) = .error .nameError :=
  ⟨by rfl, by rfl, by rfl, by rfl⟩

/-- C5: `get_my_location` returns the sentinel
`(None, None, "Unknown Location")` when the geolocation response lacks a
`loc` field, when the service is unreachable, when `.json()` raises, and
when parsing the `loc` string fails. -/
theorem claim_C5 :
    (∀ (s : Nat) (t : String) (fields : List (String × Json)),
        fields.lookup "loc" = none →
        get_my_location (.ok ⟨s, t, .ok (.obj fields)⟩) = (none, none, "Unknown Location")) ∧
    (get_my_location .netError = (none, none, "Unknown Location")) ∧
    (∀ (s : Nat) (t : String) (e : PyErr),
        get_my_location (.ok ⟨s, t, .error e⟩) = (none, none, "Unknown Location")) ∧
    (∀ (s : Nat) (t : String) (fields : List (String × Json)) (ls : String) (e : PyErr),
        fields.lookup "loc" = some (.str ls) → parseLoc ls = .error e →
        get_my_location (.ok ⟨s, t, .ok (.obj fields)⟩) =
          (none, none, "Unknown Location")) := by
  refine ⟨?_, rfl, ?_, ?_⟩
  · intro s t fields h
    simp [get_my_location, get_my_location_body, Json.get1, Json.getD, h, Json.truthy]
  · intro s t e
    simp [get_my_location, get_my_location_body]
  · intro s t fields ls e hloc hp
    by_cases hls : ls = ""
    · subst hls
      have h0 : ("" : String).isEmpty = true := rfl
      simp [get_my_location, get_my_location_body, Json.get1, Json.getD, hloc, Json.truthy, h0]
    · have hne : ls.isEmpty = false := by
        rw [Bool.eq_false_iff]
        intro hcontra
        exact hls ((String.isEmpty_iff ls).1 hcontra)
      simp [get_my_location, get_my_location_body, Json.get1, Json.getD, hloc, Json.truthy,
        hne, hp]

/-- Witness for C5: a response without `loc`, and one whose `loc` does not
parse, both yield the sentinel. -/
theorem claim_C5_witness :
    get_my_location (.ok ⟨200, "", .ok (.obj [("city", .str "NY")])⟩) =
      (none, none, "Unknown Location") ∧
    get_my_location (.ok ⟨200, "", .ok (.obj [("loc", .str "abc")])⟩) =
      (none, none, "Unknown Location") :=
  ⟨claim_C5.1 200 "" [("city", .str "NY")] rfl,
   claim_C5.2.2.2 200 "" [("loc", .str "abc")] "abc" .valueError rfl rfl⟩

/-- C6: `geocode_address` never propagates an exception: network errors,
parse errors of the response body, and empty result sets (for any query,
including the empty one) all return the sentinel
`(None, None, "Unknown Location")`. -/
theorem claim_C6 :
    (∀ addr : String, geocode_address addr .netError = (none, none, .str "Unknown Location")) ∧
    (∀ (addr : String) (s : Nat) (t : String) (e : PyErr),
        geocode_address addr (.ok ⟨s, t, .error e⟩) = (none, none, .str "Unknown Location")) ∧
    (∀ (addr : String) (s : Nat) (t : String),
        geocode_address addr (.ok ⟨s, t, .ok (.arr [])⟩) =
          (none, none, .str "Unknown Location")) := by
  refine ⟨fun _ => rfl, ?_, ?_⟩
  · intro addr s t e
    by_cases h : s = 200 <;> simp [geocode_address, geocode_address_body, h]
  · intro addr s t
    by_cases h : s = 200 <;> simp [geocode_address, geocode_address_body, h, Json.truthy]

/-- C7: on every non-200 places-search response both search variants report
`"Error: <status> - <body>"` on the error channel and return the empty
list, without raising. -/
theorem claim_C7 (s : Nat) (t : String) (jr : Except PyErr Json) (h : s ≠ 200) :
    search_gluten_free_restaurants (.ok ⟨s, t, jr⟩) =
      .ok (some ("Error: " ++ toString s ++ " - " ++ t), []) ∧
    search_gluten_free_restaurants_lenient (.ok ⟨s, t, jr⟩) =
      .ok (some ("Error: " ++ toString s ++ " - " ++ t), []) := by
  constructor <;>
    simp [search_gluten_free_restaurants, search_gluten_free_restaurants_lenient, h]

/-- Witness for C7 at statuses 429 and 500. -/
theorem claim_C7_witness :
    search_gluten_free_restaurants (.ok ⟨429, "Too Many Requests", .ok .null⟩) =
      .ok (some "Error: 429 - Too Many Requests", []) ∧
    search_gluten_free_restaurants_lenient (.ok ⟨500, "Server Error", .ok .null⟩) =
      .ok (some "Error: 500 - Server Error", []) :=
  ⟨(claim_C7 429 "Too Many Requests" (.ok .null) (by decide)).1,
   (claim_C7 500 "Server Error" (.ok .null) (by decide)).2⟩

/-- C8: on a non-empty geocoding result list `geocode_address` uses only
the first result — its `lat`/`lon` string fields are converted to
floating-point and the label is its `display_name`, defaulting to the
original query text when that key is absent. -/
theorem claim_C8 (addr t : String) (fields : List (String × Json)) (rest : List Json)
    (slat slon : String) (la lo : Rat)
    (hlat : fields.lookup "lat" = some (.str slat))
    (hla : pyFloat slat = .ok la)
    (hlon : fields.lookup "lon" = some (.str slon))
    (hlo : pyFloat slon = .ok lo) :
    geocode_address addr (.ok ⟨200, t, .ok (.arr (.obj fields :: rest))⟩) =
      (some la, some lo, (fields.lookup "display_name").getD (.str addr)) := by
  simp [geocode_address, geocode_address_body, Json.truthy, Json.at0, Json.idx, Json.getD,
    pyFloatJ, hlat, hla, hlon, hlo]

/-- Witness for C8: the spec's New York example, plus the fallback to the
query text when `display_name` is absent. -/
theorem claim_C8_witness :
    geocode_address "New York, NY" (.ok ⟨200, "",
        .ok (.arr [.obj [("lat", .str "40.7128"), ("lon", .str "-74.0060"),
          ("display_name", .str "New York, NY, USA")]])⟩) =
      (some (mkRat 407128 10000), some (mkRat (-740060) 10000), .str "New York, NY, USA") ∧
    geocode_address "Q" (.ok ⟨200, "",
        .ok (.arr [.obj [("lat", .str "1.5"), ("lon", .str "2")]])⟩) =
      (some (mkRat 15 10), some 2, .str "Q") :=
  ⟨claim_C8 "New York, NY" "" [("lat", .str "40.7128"), ("lon", .str "-74.0060"),
      ("display_name", .str "New York, NY, USA")] [] "40.7128" "-74.0060"
      (mkRat 407128 10000) (mkRat (-740060) 10000) (by rfl) (by rfl) (by rfl) (by rfl),
   claim_C8 "Q" "" [("lat", .str "1.5"), ("lon", .str "2")] [] "1.5" "2"
      (mkRat 15 10) 2 (by rfl) (by rfl) (by rfl) (by rfl)⟩

/-- C9: on a geolocation response containing a `loc` field that splits into
two parseable parts, `get_my_location` returns the two floating-point
coordinates and the label `f"{city}, {region}, {country}"` built by plain
concatenation, with no skip-if-absent logic: an absent field renders as the
placeholder `"None"` (`pyStr Json.null = "None"`). -/
theorem claim_C9 (s : Nat) (t : String) (fields : List (String × Json)) (ls a b : String)
    (la lo : Rat)
    (hloc : fields.lookup "loc" = some (.str ls))
    (hne : ls ≠ "")
    (hsplit : pySplit ',' ls = [a, b])
    (ha : pyFloat a = .ok la)
    (hb : pyFloat b = .ok lo) :
    get_my_location (.ok ⟨s, t, .ok (.obj fields)⟩) =
      (some la, some lo,
        pyStr ((fields.lookup "city").getD .null) ++ ", " ++
          pyStr ((fields.lookup "region").getD .null) ++ ", " ++
          pyStr ((fields.lookup "country").getD .null)) ∧
    pyStr Json.null = "None" := by
  have hp : parseLoc ls = .ok (la, lo) := by
    simp [parseLoc, hsplit, ha, hb]
  have hne2 : ls.isEmpty = false := by
    rw [Bool.eq_false_iff]
    intro hcontra
    exact hne ((String.isEmpty_iff ls).1 hcontra)
  refine ⟨?_, rfl⟩
  simp [get_my_location, get_my_location_body, Json.get1, Json.getD, hloc, Json.truthy,
    hne2, hp]

/-- Witness for C9: coordinates parse from `"40.7128,-74.0060"` and the
absent `region` appears as `"None"` in the label. -/
theorem claim_C9_witness :
    get_my_location (.ok ⟨200, "",
        .ok (.obj [("loc", .str "40.7128,-74.0060"), ("city", .str "New York"),
          ("country", .str "US")])⟩) =
      (some (mkRat 407128 10000), some (mkRat (-740060) 10000), "New York, None, US") :=
  (claim_C9 200 "" [("loc", .str "40.7128,-74.0060"), ("city", .str "New York"),
      ("country", .str "US")] "40.7128,-74.0060" "40.7128" "-74.0060"
      (mkRat 407128 10000) (mkRat (-740060) 10000) (by rfl) (by decide) (by rfl)
      (by rfl) (by rfl)).1

/-- C10: in every runnable variant the post-resolution stop condition is the
truthiness test `if not latitude:`, so a successfully resolved location
whose latitude is exactly 0.0 takes the "could not determine location"
failure path and neither the credential fetch nor the place search is
performed — regardless of longitude and label. -/
theorem claim_C10 (ip : HttpOutcome) (store : StoreOutcome) (lo : Option Rat) (lbl : String)
    (h : get_my_location ip = (some 0, lo, lbl)) :
    main_glutenfreefinder (.useCurrent ip) store = ⟨true, false, false⟩ ∧
    main_searchplaces ip store = ⟨true, false, false⟩ ∧
    main_streamlitapp ip store = ⟨true, false, false⟩ ∧
    (∀ (a : String) (g : HttpOutcome) (lo2 : Option Rat) (lbl2 : Json),
        geocode_address a g = (some 0, lo2, lbl2) →
        main_glutenfreefinder (.enterAddress a g) store = ⟨true, false, false⟩) := by
  have hlat : (get_my_location ip).1 = some 0 := by rw [h]
  refine ⟨?_, ?_, ?_, ?_⟩
  · simp [main_glutenfreefinder, hlat, run_pipeline, pyTruthyOptFloat]
  · simp [main_searchplaces, hlat, run_pipeline, pyTruthyOptFloat]
  · simp [main_streamlitapp, hlat, run_pipeline, pyTruthyOptFloat]
  · intro a g lo2 lbl2 hg
    have hlat2 : (geocode_address a g).1 = some 0 := by rw [hg]
    simp [main_glutenfreefinder, hlat2, run_pipeline, pyTruthyOptFloat]

/-- Witness for C10: a geolocation response with `loc = "0,-74.0060"`
resolves to latitude 0, and both the glutenfreefinder and searchplaces
pipelines stop without fetching the credential or searching. -/
theorem claim_C10_witness :
    main_glutenfreefinder
        (.useCurrent (.ok ⟨200, "", .ok (.obj [("loc", .str "0,-74.0060")])⟩))
        (.clientError "denied") = ⟨true, false, false⟩ ∧
    main_searchplaces (.ok ⟨200, "", .ok (.obj [("loc", .str "0,-74.0060")])⟩)
        (.clientError "denied") = ⟨true, false, false⟩ :=
  ⟨((claim_C10 (.ok ⟨200, "", .ok (.obj [("loc", .str "0,-74.0060")])⟩)
      (.clientError "denied") (some (mkRat (-740060) 10000)) "None, None, None"
      (by rfl))).1,
   ((claim_C10 (.ok ⟨200, "", .ok (.obj [("loc", .str "0,-74.0060")])⟩)
      (.clientError "denied") (some (mkRat (-740060) 10000)) "None, None, None"
      (by rfl))).2.1⟩
